import Mathlib

/-!
Shallow embedding of `paypal-python` (package `paypal_api`), centred on
`paypal_api/interface.py` (`PayPalInterface`).  Python dicts are embedded as
association lists of string keys in insertion order; inserting an existing key
replaces its value in place, inserting a fresh key appends, exactly like a
CPython dict.  Values transported through `PayPalInterface._call` are embedded
as `PyVal`: either a string or an opaque non-string Python object.
-/

namespace PaypalApi

/-- A Python value as seen by the interface layer: a string, or an opaque
non-string object (such as the interface object bound to `self`, or the
keyword-argument dict itself). -/
inductive PyVal where
  | str (s : String)
  | obj
deriving DecidableEq, Repr

/-- A Python dict with string keys, in insertion order. -/
abbrev PyDict := List (String × PyVal)

section Dict

variable {α : Type}

/-- `d[k] = v` on a CPython dict: if `k` is already a key, its first (unique,
for a genuine dict) entry keeps its position and takes the new value;
otherwise `(k, v)` is appended at the end. -/
def dictInsert : List (String × α) → String → α → List (String × α)
  | [], k, v => [(k, v)]
  | p :: rest, k, v =>
    if p.1 = k then (p.1, v) :: rest else p :: dictInsert rest k v

/-- `d.get(k)`: the value at the first entry whose key is `k`. -/
def dictLookup : List (String × α) → String → Option α
  | [], _ => none
  | p :: rest, k => if p.1 = k then some p.2 else dictLookup rest k

/-- The keys of a dict, in order. -/
def dictKeys (d : List (String × α)) : List String :=
  d.map Prod.fst

/-- `d.update(ds)`: insert every entry of `ds` into `d`, in order. -/
def dictUpdate (d ds : List (String × α)) : List (String × α) :=
  ds.foldl (fun acc p => dictInsert acc p.1 p.2) d

end Dict

/-- ASCII upper-casing of one character, the model of Python `str.upper` on
the ASCII parameter names this library uses. -/
def pyCharUpper (c : Char) : Char :=
  if 97 ≤ c.toNat ∧ c.toNat ≤ 122 then Char.ofNat (c.toNat - 32) else c

/-- ASCII lower-casing of one character, the model of Python `str.lower`. -/
def pyCharLower (c : Char) : Char :=
  if 65 ≤ c.toNat ∧ c.toNat ≤ 90 then Char.ofNat (c.toNat + 32) else c

/-- Model of Python `str.upper` (ASCII). -/
def pyUpper (s : String) : String :=
  ⟨s.data.map pyCharUpper⟩

/-- Model of Python `str.lower` (ASCII). -/
def pyLower (s : String) : String :=
  ⟨s.data.map pyCharLower⟩

/-- Modelled from the spec: `paypal_api/settings.py` (class `PayPalConfig`) is
not under `src/`; only the configuration fields that `interface.py` reads are
modelled, as the spec's "credential fields, endpoint URL, API version, auth
mode tag, timeout, TLS verification setting". -/
structure PayPalConfig where
  API_AUTHENTICATION_MODE : String
  API_VERSION : String
  API_USERNAME : String
  API_PASSWORD : String
  API_SIGNATURE : String
  UNIPAY_SUBJECT : String
  API_ENDPOINT : String
  PAYPAL_URL_BASE : String
  HTTP_TIMEOUT : String
  API_CA_CERTS : String
deriving DecidableEq, Repr

/-- `PayPalInterface`: its only state is the configuration stored by
`__init__` (interface.py lines 33-48). -/
structure PayPalInterface where
  config : PayPalConfig
deriving DecidableEq, Repr

/-- The NVP key/value mapping of a parsed response together with its derived
success flag.  Modelled from the spec: `paypal_api/response.py`
(class `PayPalResponse`) is not under `src/`. -/
structure PayPalResponse where
  nvp : List (String × String)
  success : Bool
deriving DecidableEq, Repr

/-- The exceptions of `paypal_api/exceptions.py` as raised by `interface.py`:
`PayPalError` with a message, and `PayPalAPIResponseError` carrying the parsed
failure response. -/
inductive PayPalExn where
  | payPalError (msg : String)
  | payPalAPIResponseError (response : PayPalResponse)
deriving DecidableEq, Repr

/-- Value of a hexadecimal digit character. -/
def hexVal (c : Char) : Nat :=
  if 48 ≤ c.toNat ∧ c.toNat ≤ 57 then c.toNat - 48
  else if 97 ≤ c.toNat ∧ c.toNat ≤ 102 then c.toNat - 87
  else if 65 ≤ c.toNat ∧ c.toNat ≤ 70 then c.toNat - 55
  else 0

/-- Whether a character is a hexadecimal digit. -/
def isHexChar (c : Char) : Bool :=
  (48 ≤ c.toNat ∧ c.toNat ≤ 57) ∨ (97 ≤ c.toNat ∧ c.toNat ≤ 102) ∨
    (65 ≤ c.toNat ∧ c.toNat ≤ 70)

/-- URL-decoding of a character list: `+` becomes a space and `%XX` becomes
the character with code `XX`; anything else passes through. -/
def percentDecode : List Char → List Char
  | [] => []
  | '+' :: rest => ' ' :: percentDecode rest
  | '%' :: h1 :: h2 :: rest2 =>
    if isHexChar h1 ∧ isHexChar h2 then
      Char.ofNat (16 * hexVal h1 + hexVal h2) :: percentDecode rest2
    else '%' :: percentDecode (h1 :: h2 :: rest2)
  | c :: rest => c :: percentDecode rest

/-- URL-decoding of a string. -/
def urldecode (s : String) : String :=
  ⟨percentDecode s.data⟩

/-- Split a character list on a separator character, like Python
`str.split(sep)`: the empty list yields one empty field. -/
def splitSep (sep : Char) : List Char → List (List Char)
  | [] => [[]]
  | c :: rest =>
    let r := splitSep sep rest
    if c = sep then [] :: r
    else
      match r with
      | [] => [[c]]
      | g :: gs => (c :: g) :: gs

/-- Split a field at its first `=` into key and value characters; a field
without `=` yields nothing. -/
def breakEq : List Char → Option (List Char × List Char)
  | [] => none
  | '=' :: rest => some ([], rest)
  | c :: rest =>
    match breakEq rest with
    | none => none
    | some (k, v) => some (c :: k, v)

/-- Decode one `key=value` field of an NVP text into its URL-decoded key and
value; fields without `=` are skipped. -/
def parsePair (field : List Char) : Option (String × String) :=
  (breakEq field).map fun p => (urldecode ⟨p.1⟩, urldecode ⟨p.2⟩)

/-- Modelled from the spec: the NVP wire text is "URL-encoded key=value pairs
joined by `&`"; decoding splits on `&` and URL-decodes each side of the first
`=` of each field. -/
def parseNVP (raw : String) : List (String × String) :=
  (splitSep '&' raw.data).filterMap parsePair

/-- Modelled from the spec: the accepted-success tokens of the ACK field,
compared case-insensitively. -/
def acceptedSuccessTokens : List String :=
  ["SUCCESS", "SUCCESSWITHWARNING"]

/-- Modelled from the spec: `paypal_api/response.py` (class `PayPalResponse`)
is not under `src/`.  Parsing an NVP response text yields the decoded mapping
and a success flag that holds exactly when the ACK field equals an
accepted-success token compared case-insensitively; parsing is total, so it
never fails on missing or extra fields. -/
def parseResponseModel (raw : String) : PayPalResponse :=
  let nvp := parseNVP raw
  { nvp := nvp
    success :=
      match dictLookup nvp "ACK" with
      | some v => acceptedSuccessTokens.contains (pyUpper v)
      | none => false }

/-- The base `url_values` dict assembled by `PayPalInterface._call`
(interface.py lines 99-109): the fixed `METHOD`/`VERSION` entries followed by
the credential entries of the configured authentication mode. -/
def call_auth_values (config : PayPalConfig) (method : String) : PyDict :=
  [("METHOD", PyVal.str method), ("VERSION", PyVal.str config.API_VERSION)] ++
    (if config.API_AUTHENTICATION_MODE = "3TOKEN" then
      [("USER", PyVal.str config.API_USERNAME),
       ("PWD", PyVal.str config.API_PASSWORD),
       ("SIGNATURE", PyVal.str config.API_SIGNATURE)]
    else if config.API_AUTHENTICATION_MODE = "UNIPAY" then
      [("SUBJECT", PyVal.str config.UNIPAY_SUBJECT)]
    else [])

/-- The complete `url_values` dict transmitted by `PayPalInterface._call`
(interface.py lines 99-113): every caller-supplied key is upper-cased and its
value inserted over the base entries. -/
def call_url_values (config : PayPalConfig) (method : String)
    (kwargs : PyDict) : PyDict :=
  kwargs.foldl (fun d p => dictInsert d (pyUpper p.1) p.2)
    (call_auth_values config method)

/-- `PayPalInterface._check_required` (interface.py lines 66-74): walk the
required NVP names in order and raise `PayPalError` at the first one present
neither in its lower-case nor in its upper-case form among the keys. -/
def check_required {α : Type} : List String → List (String × α) → Except PayPalExn Unit
  | [], _ => Except.ok ()
  | req :: rest, kwargs =>
    if pyLower req ∉ dictKeys kwargs ∧ pyUpper req ∉ dictKeys kwargs then
      Except.error (PayPalExn.payPalError ("missing required : " ++ req))
    else check_required rest kwargs

/-- `PayPalInterface._sanitize_locals` (interface.py lines 76-85): remove the
entry keyed `self` from a copy of `locals()`, when present. -/
def sanitize_locals (data : PyDict) : PyDict :=
  if "self" ∈ dictKeys data then data.eraseP (fun p => p.1 == "self") else data

/-- `PayPalInterface._call` (interface.py lines 87-138): assemble
`url_values`, issue the HTTP GET — embedded as the oracle `http` from the
transmitted parameters to the raw response body — parse the body, and either
return the parsed response or raise `PayPalAPIResponseError` carrying it when
its success flag is false.  The interface state is returned unchanged. -/
def call (iface : PayPalInterface) (method : String) (kwargs : PyDict)
    (http : PyDict → String) : PayPalInterface × Except PayPalExn PayPalResponse :=
  let url_values := call_url_values iface.config method kwargs
  let response := parseResponseModel (http url_values)
  (iface,
    if response.success then Except.ok response
    else Except.error (PayPalExn.payPalAPIResponseError response))

/-- The dict forwarded to `_call` by `PayPalInterface.address_verify`
(interface.py lines 140-167): `self._sanitize_locals(locals())`, where the
locals are `self`, `email`, `street`, `zip` in parameter order. -/
def address_verify_args (email street zip : String) : PyDict :=
  sanitize_locals
    [("self", PyVal.obj), ("email", PyVal.str email),
     ("street", PyVal.str street), ("zip", PyVal.str zip)]

/-- `PayPalInterface.address_verify`. -/
def address_verify (iface : PayPalInterface) (email street zip : String)
    (http : PyDict → String) : PayPalInterface × Except PayPalExn PayPalResponse :=
  call iface "AddressVerify" (address_verify_args email street zip) http

/-- The dict forwarded to `_call` by `PayPalInterface.do_capture`
(interface.py lines 230-239): `kwargs.update(self._sanitize_locals(locals()))`
where the locals are `self`, `authorizationid`, `amt`, `completetype` and the
keyword dict `kwargs` itself, so after removing `self` the update also inserts
the non-string entry keyed `kwargs`. -/
def do_capture_kwargs (authorizationid amt completetype : String)
    (kwargs : PyDict) : PyDict :=
  dictUpdate kwargs
    (sanitize_locals
      [("self", PyVal.obj), ("authorizationid", PyVal.str authorizationid),
       ("amt", PyVal.str amt), ("completetype", PyVal.str completetype),
       ("kwargs", PyVal.obj)])

/-- `PayPalInterface.do_capture`. -/
def do_capture (iface : PayPalInterface) (authorizationid amt completetype : String)
    (kwargs : PyDict) (http : PyDict → String) :
    PayPalInterface × Except PayPalExn PayPalResponse :=
  call iface "DoCapture" (do_capture_kwargs authorizationid amt completetype kwargs) http

/-- The dict forwarded to `_call` by `PayPalInterface.do_direct_payment`
(interface.py lines 241-277): locals are `self`, `paymentaction` and the
keyword dict `kwargs` itself. -/
def do_direct_payment_kwargs (paymentaction : String) (kwargs : PyDict) : PyDict :=
  dictUpdate kwargs
    (sanitize_locals
      [("self", PyVal.obj), ("paymentaction", PyVal.str paymentaction),
       ("kwargs", PyVal.obj)])

/-- `PayPalInterface.do_direct_payment`. -/
def do_direct_payment (iface : PayPalInterface) (paymentaction : String)
    (kwargs : PyDict) (http : PyDict → String) :
    PayPalInterface × Except PayPalExn PayPalResponse :=
  call iface "DoDirectPayment" (do_direct_payment_kwargs paymentaction kwargs) http

/-- `PayPalInterface.do_mass_pay` (interface.py lines 279-317): forwards the
keyword dict unchanged to `_call('MassPay', ...)`. -/
def do_mass_pay (iface : PayPalInterface) (kwargs : PyDict)
    (http : PyDict → String) : PayPalInterface × Except PayPalExn PayPalResponse :=
  call iface "MassPay" kwargs http

/-- `PayPalInterface.do_void` (interface.py lines 320-330): forwards the
keyword dict unchanged to `_call('DoVoid', ...)`. -/
def do_void (iface : PayPalInterface) (kwargs : PyDict)
    (http : PyDict → String) : PayPalInterface × Except PayPalExn PayPalResponse :=
  call iface "DoVoid" kwargs http

/-- `PayPalInterface.generate_express_checkout_redirect_url`
(interface.py lines 388-401): pure string formatting of
`"%s?cmd=_express-checkout&token=%s" % (self.config.PAYPAL_URL_BASE, token)`;
the interface state is returned unchanged. -/
def generate_express_checkout_redirect_url (iface : PayPalInterface)
    (token : String) : PayPalInterface × String :=
  (iface, iface.config.PAYPAL_URL_BASE ++ "?cmd=_express-checkout&token=" ++ token)

/-- One character of `urllib.parse.quote_plus`: keep unreserved ASCII, turn a
space into `+`, percent-encode the rest (byte-level model for code points
below 256). -/
def quoteChar (c : Char) : String :=
  if (65 ≤ c.toNat ∧ c.toNat ≤ 90) ∨ (97 ≤ c.toNat ∧ c.toNat ≤ 122) ∨
      (48 ≤ c.toNat ∧ c.toNat ≤ 57) ∨ c = '_' ∨ c = '.' ∨ c = '-' ∨ c = '~' then
    String.singleton c
  else if c = ' ' then "+"
  else
    let hexDigit := fun (n : Nat) =>
      if n < 10 then Char.ofNat (48 + n) else Char.ofNat (55 + n)
    "%" ++ String.singleton (hexDigit (c.toNat / 16 % 16)) ++
      String.singleton (hexDigit (c.toNat % 16))

/-- Model of `urllib.parse.quote_plus` on a string. -/
def quote_plus (s : String) : String :=
  String.join (s.data.map quoteChar)

/-- Model of `urllib.parse.urlencode`: `quote_plus` each key and value and
join the `key=value` fields with `&`. -/
def urlencode (kwargs : List (String × String)) : String :=
  String.intercalate "&"
    (kwargs.map fun p => quote_plus p.1 ++ "=" ++ quote_plus p.2)

/-- The required parameter names of
`PayPalInterface.generate_cart_upload_redirect_url` (interface.py line 408). -/
def cart_upload_required_vals : List String :=
  ["business", "item_name_1", "amount_1", "quantity_1"]

/-- `PayPalInterface.generate_cart_upload_redirect_url`
(interface.py lines 403-418): check the required names, then return the cart
upload URL with the URL-encoded parameters appended (`_encode_utf8` is the
identity on Python 3); the interface state is returned unchanged. -/
def generate_cart_upload_redirect_url (iface : PayPalInterface)
    (kwargs : List (String × String)) : PayPalInterface × Except PayPalExn String :=
  (iface,
    match check_required cart_upload_required_vals kwargs with
    | Except.error e => Except.error e
    | Except.ok _ =>
      Except.ok (iface.config.PAYPAL_URL_BASE ++ "?cmd=_cart&upload=1" ++ "&" ++
        urlencode kwargs))

section DictLemmas

variable {α : Type}

/-- Looking a key up after a dict insertion: the inserted key now maps to the
inserted value, every other key is untouched. -/
theorem dictLookup_dictInsert (d : List (String × α)) (k v k') :
    dictLookup (dictInsert d k v) k' =
      if k = k' then some v else dictLookup d k' := by
  induction d with
  | nil => simp [dictInsert, dictLookup]
  | cons p rest ih =>
    by_cases hp : p.1 = k
    · simp only [dictInsert, if_pos hp, dictLookup, hp]
      by_cases hk : k = k'
      · simp [hk]
      · simp [hk]
    · simp only [dictInsert, if_neg hp, dictLookup, ih]
      by_cases hpk : p.1 = k'
      · have : ¬k = k' := fun h => hp (h ▸ hpk)
        simp [hpk, this]
      · simp [hpk]

/-- Every entry of a dict after an insertion is an original entry or the
inserted pair. -/
theorem mem_dictInsert {d : List (String × α)} {k v p}
    (h : p ∈ dictInsert d k v) : p ∈ d ∨ p = (k, v) := by
  induction d with
  | nil => simpa [dictInsert] using h
  | cons q rest ih =>
    by_cases hq : q.1 = k
    · simp only [dictInsert, if_pos hq] at h
      rcases List.mem_cons.mp h with h1 | h1
      · right; rw [h1, hq]
      · left; exact List.mem_cons_of_mem _ h1
    · simp only [dictInsert, if_neg hq] at h
      rcases List.mem_cons.mp h with h1 | h1
      · left; exact h1 ▸ List.mem_cons_self _ _
      · rcases ih h1 with h2 | h2
        · left; exact List.mem_cons_of_mem _ h2
        · right; exact h2

/-- The value of the last entry of `l` whose key maps to `K` under `f`. -/
def lastMatchF (f : String → String) : List (String × α) → String → Option α
  | [], _ => none
  | q :: l, K =>
    match lastMatchF f l K with
    | some v => some v
    | none => if f q.1 = K then some q.2 else none

/-- A list with no key mapping to `K` has no last match at `K`. -/
theorem lastMatchF_eq_none {f : String → String} {l : List (String × α)} {K}
    (h : ∀ q ∈ l, f q.1 ≠ K) : lastMatchF f l K = none := by
  induction l with
  | nil => rfl
  | cons q l ih =>
    have hq : f q.1 ≠ K := h q (List.mem_cons_self _ _)
    have hl := ih fun r hr => h r (List.mem_cons_of_mem _ hr)
    simp [lastMatchF, hl, hq]

/-- A member key always has a last match. -/
theorem lastMatchF_isSome_of_mem {f : String → String} {l : List (String × α)}
    {q} (h : q ∈ l) : (lastMatchF f l (f q.1)).isSome = true := by
  induction l with
  | nil => cases h
  | cons r l ih =>
    rcases List.mem_cons.mp h with h1 | h1
    · subst h1
      cases hrec : lastMatchF f l (f q.1) with
      | some v => simp [lastMatchF, hrec]
      | none => simp [lastMatchF, hrec]
    · cases hrec : lastMatchF f l (f q.1) with
      | some v => simp [lastMatchF, hrec]
      | none => simpa [hrec] using ih h1

/-- A last match is the value of some entry of the list whose key maps to the
looked-up key. -/
theorem lastMatchF_sound {f : String → String} {l : List (String × α)} {K v}
    (h : lastMatchF f l K = some v) : ∃ q ∈ l, f q.1 = K ∧ q.2 = v := by
  induction l with
  | nil => cases h
  | cons q l ih =>
    cases hrec : lastMatchF f l K with
    | some w =>
      have hw : w = v := by simpa [lastMatchF, hrec] using h
      rcases ih (hrec.trans (by rw [hw])) with ⟨r, hr, hfr, hrv⟩
      exact ⟨r, List.mem_cons_of_mem _ hr, hfr, hrv⟩
    | none =>
      by_cases hq : f q.1 = K
      · have hv : q.2 = v := by simpa [lastMatchF, hrec, hq] using h
        exact ⟨q, List.mem_cons_self _ _, hq, hv⟩
      · simp [lastMatchF, hrec, hq] at h

/-- Looking a key up after folding a list of insertions with keys transformed
by `f`: the last matching entry of the list wins, and otherwise the initial
dict answers. -/
theorem dictLookup_foldl_insert (f : String → String) (l : List (String × α))
    (init : List (String × α)) (K : String) :
    dictLookup (l.foldl (fun d p => dictInsert d (f p.1) p.2) init) K =
      match lastMatchF f l K with
      | some v => some v
      | none => dictLookup init K := by
  induction l generalizing init with
  | nil => rfl
  | cons q l ih =>
    rw [List.foldl_cons, ih]
    cases hrec : lastMatchF f l K with
    | some v => simp [lastMatchF, hrec]
    | none =>
      rw [dictLookup_dictInsert]
      by_cases hq : f q.1 = K
      · simp [lastMatchF, hrec, hq]
      · simp [lastMatchF, hrec, hq]

/-- Every entry after folding a list of insertions is an initial entry or a
transformed entry of the folded list. -/
theorem mem_foldl_insert {f : String → String} {l init : List (String × α)} {p}
    (h : p ∈ l.foldl (fun d q => dictInsert d (f q.1) q.2) init) :
    p ∈ init ∨ ∃ q ∈ l, p = (f q.1, q.2) := by
  induction l generalizing init with
  | nil => exact Or.inl h
  | cons q l ih =>
    rw [List.foldl_cons] at h
    rcases ih h with h' | ⟨r, hr, hp⟩
    · rcases mem_dictInsert h' with h'' | h''
      · exact Or.inl h''
      · exact Or.inr ⟨q, List.mem_cons_self _ _, h''⟩
    · exact Or.inr ⟨r, List.mem_cons_of_mem _ hr, hp⟩

/-- Folding insertions only depends on the transformed keys and the values. -/
theorem foldl_insert_congr {f : String → String} {l1 l2 : List (String × α)}
    (init : List (String × α))
    (h : l1.map (fun q => (f q.1, q.2)) = l2.map (fun q => (f q.1, q.2))) :
    l1.foldl (fun d q => dictInsert d (f q.1) q.2) init =
      l2.foldl (fun d q => dictInsert d (f q.1) q.2) init := by
  induction l1 generalizing l2 init with
  | nil =>
    have : l2.map (fun q => (f q.1, q.2)) = [] := h.symm
    rw [List.map_eq_nil_iff] at this
    rw [this]
  | cons q l ih =>
    cases l2 with
    | nil => simp at h
    | cons r l2' =>
      simp only [List.map_cons, List.cons.injEq, Prod.mk.injEq] at h
      obtain ⟨⟨hk, hv⟩, htl⟩ := h
      rw [List.foldl_cons, List.foldl_cons, hk, hv]
      exact ih _ htl

end DictLemmas

/-- A member entry's key always has a lookup result. -/
theorem dictLookup_isSome_of_mem {α : Type} {d : List (String × α)} {k : String}
    {v : α} (h : (k, v) ∈ d) : (dictLookup d k).isSome = true := by
  induction d with
  | nil => cases h
  | cons p rest ih =>
    by_cases hp : p.1 = k
    · simp [dictLookup, hp]
    · rcases List.mem_cons.mp h with h1 | h1
      · exact (hp (congrArg Prod.fst h1).symm).elim
      · simpa [dictLookup, hp] using ih h1

/-- A sample token-authenticated sandbox configuration for concrete instances. -/
def cfg0 : PayPalConfig :=
  { API_AUTHENTICATION_MODE := "3TOKEN"
    API_VERSION := "98.0"
    API_USERNAME := "seller_api1.example.com"
    API_PASSWORD := "pw1234"
    API_SIGNATURE := "sig5678"
    UNIPAY_SUBJECT := ""
    API_ENDPOINT := "https://api-3t.sandbox.paypal.com/nvp"
    PAYPAL_URL_BASE := "https://www.sandbox.paypal.com/webscr"
    HTTP_TIMEOUT := "30"
    API_CA_CERTS := "true" }

/-- A sample subject-authenticated configuration for concrete instances. -/
def cfg1 : PayPalConfig :=
  { cfg0 with
    API_AUTHENTICATION_MODE := "UNIPAY"
    UNIPAY_SUBJECT := "merchant@example.com" }

/-- A sample interface over `cfg0`. -/
def iface0 : PayPalInterface := ⟨cfg0⟩

/-- C1: for every invocation of the generic call, if the parsed response's
success flag is false then `_call` raises `PayPalAPIResponseError` carrying
that parsed response, and if the flag is true then `_call` returns the parsed
response and raises nothing. -/
theorem c1_call_raises_iff_failure (iface : PayPalInterface) (method : String)
    (kwargs : PyDict) (http : PyDict → String) :
    ((parseResponseModel (http (call_url_values iface.config method kwargs))).success = false →
      (call iface method kwargs http).2 =
        Except.error (PayPalExn.payPalAPIResponseError
          (parseResponseModel (http (call_url_values iface.config method kwargs))))) ∧
    ((parseResponseModel (http (call_url_values iface.config method kwargs))).success = true →
      (call iface method kwargs http).2 =
        Except.ok (parseResponseModel (http (call_url_values iface.config method kwargs)))) := by
  constructor
  · intro h; simp [call, h]
  · intro h; simp [call, h]

/-- C1 witness: a concrete failure body raises the error carrying the parsed
response, and a concrete success body returns the parsed response. -/
theorem c1_witness :
    (call iface0 "MassPay" [] (fun _ => "ACK=Failure&L_LONGMESSAGE0=missing")).2 =
      Except.error (PayPalExn.payPalAPIResponseError
        (parseResponseModel "ACK=Failure&L_LONGMESSAGE0=missing")) ∧
    (call iface0 "SetExpressCheckout" [] (fun _ => "ACK=Success&TOKEN=EC-123")).2 =
      Except.ok (parseResponseModel "ACK=Success&TOKEN=EC-123") :=
  ⟨(c1_call_raises_iff_failure iface0 "MassPay" []
      (fun _ => "ACK=Failure&L_LONGMESSAGE0=missing")).1 (by decide),
   (c1_call_raises_iff_failure iface0 "SetExpressCheckout" []
      (fun _ => "ACK=Success&TOKEN=EC-123")).2 (by decide)⟩

/-- C2: every transmitted entry derived from the caller's parameter map is the
upper-cased caller key with the caller's value unchanged, every caller key is
transmitted under its upper-cased form, and two parameter maps that differ
only in the case of their keys transmit the same parameter set. -/
theorem c2_keys_uppercased_case_insensitive (cfg : PayPalConfig)
    (method : String) (kw1 kw2 : PyDict) :
    (∀ p ∈ call_url_values cfg method kw1,
        p ∈ call_auth_values cfg method ∨ ∃ q ∈ kw1, p = (pyUpper q.1, q.2)) ∧
    (∀ q ∈ kw1,
        (dictLookup (call_url_values cfg method kw1) (pyUpper q.1)).isSome = true) ∧
    (kw1.map (fun q => (pyUpper q.1, q.2)) = kw2.map (fun q => (pyUpper q.1, q.2)) →
      call_url_values cfg method kw1 = call_url_values cfg method kw2) := by
  refine ⟨?_, ?_, ?_⟩
  · intro p hp
    simp only [call_url_values] at hp
    exact mem_foldl_insert hp
  · intro q hq
    have hs := @lastMatchF_isSome_of_mem PyVal pyUpper kw1 q hq
    simp only [call_url_values]
    rw [dictLookup_foldl_insert]
    cases hrec : lastMatchF pyUpper kw1 (pyUpper q.1) with
    | some v => rfl
    | none => rw [hrec] at hs; simp at hs
  · intro h
    simp only [call_url_values]
    exact foldl_insert_congr _ h

/-- C2 witness: concrete instances of the three conjuncts at a lower-cased
and a mixed-cased caller map. -/
theorem c2_witness :
    (("AMT", PyVal.str "10.00") ∈ call_auth_values cfg0 "DoVoid" ∨
      ∃ q ∈ [("amt", PyVal.str "10.00")], ("AMT", PyVal.str "10.00") = (pyUpper q.1, q.2)) ∧
    (dictLookup (call_url_values cfg0 "DoVoid" [("amt", PyVal.str "10.00")])
      (pyUpper "amt")).isSome = true ∧
    call_url_values cfg0 "DoVoid" [("amt", PyVal.str "10.00")] =
      call_url_values cfg0 "DoVoid" [("AmT", PyVal.str "10.00")] :=
  ⟨(c2_keys_uppercased_case_insensitive cfg0 "DoVoid" [("amt", PyVal.str "10.00")] []).1
      ("AMT", PyVal.str "10.00") (by decide),
   (c2_keys_uppercased_case_insensitive cfg0 "DoVoid" [("amt", PyVal.str "10.00")] []).2.1
      ("amt", PyVal.str "10.00") (by decide),
   (c2_keys_uppercased_case_insensitive cfg0 "DoVoid" [("amt", PyVal.str "10.00")]
      [("AmT", PyVal.str "10.00")]).2.2 (by decide)⟩

/-- C9: caller-supplied parameters are merged after the fixed and credential
entries, so a caller key whose upper-cased form is one of METHOD, VERSION,
USER, PWD, SIGNATURE, SUBJECT makes the transmitted value at that key the
caller's own value. -/
theorem c9_caller_overrides_fixed_entries (cfg : PayPalConfig) (method : String)
    (kwargs : PyDict) (K : String)
    (_hK : K ∈ (["METHOD", "VERSION", "USER", "PWD", "SIGNATURE", "SUBJECT"] : List String))
    (h : ∃ q ∈ kwargs, pyUpper q.1 = K) :
    ∃ q ∈ kwargs, pyUpper q.1 = K ∧
      dictLookup (call_url_values cfg method kwargs) K = some q.2 := by
  obtain ⟨q, hq, hqK⟩ := h
  have hs := @lastMatchF_isSome_of_mem PyVal pyUpper kwargs q hq
  rw [hqK] at hs
  cases hrec : lastMatchF pyUpper kwargs K with
  | none => rw [hrec] at hs; simp at hs
  | some v =>
    obtain ⟨r, hr, hrK, hrv⟩ := lastMatchF_sound hrec
    refine ⟨r, hr, hrK, ?_⟩
    simp only [call_url_values]
    rw [dictLookup_foldl_insert, hrec, hrv]

/-- C9 witness: a caller-supplied `user` entry is transmitted as `USER` with
the caller's value, overriding the configured credential. -/
theorem c9_witness :
    ∃ q ∈ [("user", PyVal.str "other_api1.example.com")], pyUpper q.1 = "USER" ∧
      dictLookup (call_url_values cfg0 "MassPay"
        [("user", PyVal.str "other_api1.example.com")]) "USER" = some q.2 :=
  c9_caller_overrides_fixed_entries cfg0 "MassPay"
    [("user", PyVal.str "other_api1.example.com")] "USER" (by decide)
    ⟨("user", PyVal.str "other_api1.example.com"), by decide, by decide⟩

/-- C6 counterexample: a caller map containing the key `METHOD` makes the
transmitted METHOD entry the caller's value rather than the given method
name, so the claim fails as universally stated. -/
theorem c6_counterexample :
    dictLookup (call_url_values cfg0 "DoVoid" [("METHOD", PyVal.str "DoCapture")])
        "METHOD" = some (PyVal.str "DoCapture") ∧
      ("DoCapture" : String) ≠ "DoVoid" := by
  exact ⟨by decide, by decide⟩

/-- C6 (amended): provided no caller key upper-cases to one of the fixed or
credential names, the transmitted set carries METHOD and VERSION as given and
configured, the token-mode credentials exactly in 3TOKEN mode, and the
subject exactly in UNIPAY mode. -/
theorem c6_fixed_and_credential_entries (cfg : PayPalConfig) (method : String)
    (kwargs : PyDict)
    (h : ∀ q ∈ kwargs, pyUpper q.1 ∉
      (["METHOD", "VERSION", "USER", "PWD", "SIGNATURE", "SUBJECT"] : List String)) :
    dictLookup (call_url_values cfg method kwargs) "METHOD" = some (PyVal.str method) ∧
    dictLookup (call_url_values cfg method kwargs) "VERSION" =
      some (PyVal.str cfg.API_VERSION) ∧
    (cfg.API_AUTHENTICATION_MODE = "3TOKEN" →
      dictLookup (call_url_values cfg method kwargs) "USER" =
        some (PyVal.str cfg.API_USERNAME) ∧
      dictLookup (call_url_values cfg method kwargs) "PWD" =
        some (PyVal.str cfg.API_PASSWORD) ∧
      dictLookup (call_url_values cfg method kwargs) "SIGNATURE" =
        some (PyVal.str cfg.API_SIGNATURE) ∧
      dictLookup (call_url_values cfg method kwargs) "SUBJECT" = none) ∧
    (cfg.API_AUTHENTICATION_MODE = "UNIPAY" →
      dictLookup (call_url_values cfg method kwargs) "SUBJECT" =
        some (PyVal.str cfg.UNIPAY_SUBJECT) ∧
      dictLookup (call_url_values cfg method kwargs) "USER" = none ∧
      dictLookup (call_url_values cfg method kwargs) "PWD" = none ∧
      dictLookup (call_url_values cfg method kwargs) "SIGNATURE" = none) := by
  have hbase : ∀ K, K ∈
      (["METHOD", "VERSION", "USER", "PWD", "SIGNATURE", "SUBJECT"] : List String) →
      dictLookup (call_url_values cfg method kwargs) K =
        dictLookup (call_auth_values cfg method) K := by
    intro K hKmem
    simp only [call_url_values]
    rw [dictLookup_foldl_insert,
      lastMatchF_eq_none (fun q hq heq => h q hq (by rw [heq]; exact hKmem))]
  refine ⟨?_, ?_, ?_, ?_⟩
  · rw [hbase "METHOD" (by decide)]
    simp [call_auth_values, dictLookup]
  · rw [hbase "VERSION" (by decide)]
    simp [call_auth_values, dictLookup]
  · intro hmode
    refine ⟨?_, ?_, ?_, ?_⟩ <;>
      first
        | (rw [hbase "USER" (by decide)]; simp [call_auth_values, dictLookup, hmode])
        | (rw [hbase "PWD" (by decide)]; simp [call_auth_values, dictLookup, hmode])
        | (rw [hbase "SIGNATURE" (by decide)]; simp [call_auth_values, dictLookup, hmode])
        | (rw [hbase "SUBJECT" (by decide)]; simp [call_auth_values, dictLookup, hmode])
  · intro hmode
    refine ⟨?_, ?_, ?_, ?_⟩ <;>
      first
        | (rw [hbase "SUBJECT" (by decide)]; simp [call_auth_values, dictLookup, hmode])
        | (rw [hbase "USER" (by decide)]; simp [call_auth_values, dictLookup, hmode])
        | (rw [hbase "PWD" (by decide)]; simp [call_auth_values, dictLookup, hmode])
        | (rw [hbase "SIGNATURE" (by decide)]; simp [call_auth_values, dictLookup, hmode])

/-- C6 witness: the amended statement at a token-mode and a subject-mode
configuration with a non-colliding caller map. -/
theorem c6_witness :
    dictLookup (call_url_values cfg0 "DoVoid" [("amt", PyVal.str "1.00")]) "METHOD" =
      some (PyVal.str "DoVoid") ∧
    dictLookup (call_url_values cfg1 "MassPay" []) "SUBJECT" =
      some (PyVal.str cfg1.UNIPAY_SUBJECT) :=
  ⟨(c6_fixed_and_credential_entries cfg0 "DoVoid" [("amt", PyVal.str "1.00")]
      (by decide)).1,
   ((c6_fixed_and_credential_entries cfg1 "MassPay" [] (by decide)).2.2.2 rfl).1⟩

/-- C3 counterexample: with an empty caller map, `do_capture` forwards to
`_call` an extra entry keyed `kwargs` (the keyword dict swept up from
`locals()`), which is neither a caller-supplied parameter nor one of the
wrapper's declared named parameters, so the forwarded set is not exactly
caller parameters plus declared parameters. -/
theorem c3_counterexample :
    dictLookup (do_capture_kwargs "A-123" "10.00" "Complete" []) "kwargs" =
        some PyVal.obj ∧
      ("kwargs" : String) ∉
        (["authorizationid", "amt", "completetype"] : List String) ∧
      dictKeys (do_capture_kwargs "A-123" "10.00" "Complete" []) =
        ["authorizationid", "amt", "completetype", "kwargs"] := by
  decide

/-- C3 (amended): `do_mass_pay` and `do_void` forward exactly the caller's
map to the generic call under their fixed method names; `address_verify`
forwards exactly its declared parameters with `self` removed; the wrappers
that merge `locals()` into their keyword map (`do_capture`,
`do_direct_payment`) forward the caller's parameters plus their declared
named parameters plus one extra entry keyed `kwargs` holding the non-string
keyword dict, and nothing else. -/
theorem c3_wrappers_forward_merged_params (iface : PayPalInterface)
    (kwargs : PyDict) (http : PyDict → String)
    (email street zip authorizationid amt completetype paymentaction : String) :
    do_mass_pay iface kwargs http = call iface "MassPay" kwargs http ∧
    do_void iface kwargs http = call iface "DoVoid" kwargs http ∧
    address_verify iface email street zip http =
      call iface "AddressVerify"
        [("email", PyVal.str email), ("street", PyVal.str street),
         ("zip", PyVal.str zip)] http ∧
    (dictLookup (do_capture_kwargs authorizationid amt completetype kwargs)
        "authorizationid" = some (PyVal.str authorizationid) ∧
      dictLookup (do_capture_kwargs authorizationid amt completetype kwargs)
        "amt" = some (PyVal.str amt) ∧
      dictLookup (do_capture_kwargs authorizationid amt completetype kwargs)
        "completetype" = some (PyVal.str completetype) ∧
      dictLookup (do_capture_kwargs authorizationid amt completetype kwargs)
        "kwargs" = some PyVal.obj ∧
      ∀ k, k ∉ (["authorizationid", "amt", "completetype", "kwargs"] : List String) →
        dictLookup (do_capture_kwargs authorizationid amt completetype kwargs) k =
          dictLookup kwargs k) ∧
    (dictLookup (do_direct_payment_kwargs paymentaction kwargs) "paymentaction" =
        some (PyVal.str paymentaction) ∧
      dictLookup (do_direct_payment_kwargs paymentaction kwargs) "kwargs" =
        some PyVal.obj ∧
      ∀ k, k ∉ (["paymentaction", "kwargs"] : List String) →
        dictLookup (do_direct_payment_kwargs paymentaction kwargs) k =
          dictLookup kwargs k) := by
  have hcap : do_capture_kwargs authorizationid amt completetype kwargs =
      dictInsert (dictInsert (dictInsert (dictInsert kwargs
        "authorizationid" (PyVal.str authorizationid))
        "amt" (PyVal.str amt))
        "completetype" (PyVal.str completetype))
        "kwargs" PyVal.obj := rfl
  have hdir : do_direct_payment_kwargs paymentaction kwargs =
      dictInsert (dictInsert kwargs
        "paymentaction" (PyVal.str paymentaction))
        "kwargs" PyVal.obj := rfl
  refine ⟨rfl, rfl, rfl, ⟨?_, ?_, ?_, ?_, ?_⟩, ⟨?_, ?_, ?_⟩⟩
  · simp [hcap, dictLookup_dictInsert]
  · simp [hcap, dictLookup_dictInsert]
  · simp [hcap, dictLookup_dictInsert]
  · simp [hcap, dictLookup_dictInsert]
  · intro k hk
    simp only [List.mem_cons, List.not_mem_nil, or_false, not_or] at hk
    obtain ⟨hk1, hk2, hk3, hk4⟩ := hk
    rw [hcap, dictLookup_dictInsert, if_neg (Ne.symm hk4),
      dictLookup_dictInsert, if_neg (Ne.symm hk3),
      dictLookup_dictInsert, if_neg (Ne.symm hk2),
      dictLookup_dictInsert, if_neg (Ne.symm hk1)]
  · simp [hdir, dictLookup_dictInsert]
  · simp [hdir, dictLookup_dictInsert]
  · intro k hk
    simp only [List.mem_cons, List.not_mem_nil, or_false, not_or] at hk
    obtain ⟨hk1, hk2⟩ := hk
    rw [hdir, dictLookup_dictInsert, if_neg (Ne.symm hk2),
      dictLookup_dictInsert, if_neg (Ne.symm hk1)]

/-- C3 witness: the amended statement at concrete inputs, including the
frame property on a caller key the wrappers do not touch. -/
theorem c3_witness :
    do_mass_pay iface0 [("currencycode", PyVal.str "USD")]
        (fun _ => "ACK=Success") =
      call iface0 "MassPay" [("currencycode", PyVal.str "USD")]
        (fun _ => "ACK=Success") ∧
    dictLookup (do_capture_kwargs "A-123" "9.99" "Complete"
        [("currencycode", PyVal.str "USD")]) "kwargs" = some PyVal.obj ∧
    dictLookup (do_capture_kwargs "A-123" "9.99" "Complete"
        [("currencycode", PyVal.str "USD")]) "currencycode" =
      dictLookup [("currencycode", PyVal.str "USD")] "currencycode" :=
  ⟨(c3_wrappers_forward_merged_params iface0 [("currencycode", PyVal.str "USD")]
      (fun _ => "ACK=Success") "e" "s" "z" "A-123" "9.99" "Complete" "Sale").1,
   (c3_wrappers_forward_merged_params iface0 [("currencycode", PyVal.str "USD")]
      (fun _ => "ACK=Success") "e" "s" "z" "A-123" "9.99" "Complete" "Sale").2.2.2.1.2.2.2.1,
   (c3_wrappers_forward_merged_params iface0 [("currencycode", PyVal.str "USD")]
      (fun _ => "ACK=Success") "e" "s" "z" "A-123" "9.99" "Complete" "Sale").2.2.2.1.2.2.2.2
     "currencycode" (by decide)⟩

/-- Walking the required names: when some required name has no key equal to
it up to upper-casing, `_check_required` raises `PayPalError` naming a
required parameter that is present neither lower-cased nor upper-cased. -/
theorem check_required_error_of_absent :
    ∀ (requires : List String) (kwargs : List (String × String)),
    (∀ r ∈ requires, pyUpper (pyLower r) = pyUpper r ∧ pyUpper (pyUpper r) = pyUpper r) →
    (∃ r ∈ requires, ∀ k ∈ dictKeys kwargs, pyUpper k ≠ pyUpper r) →
    ∃ r ∈ requires,
      pyLower r ∉ dictKeys kwargs ∧ pyUpper r ∉ dictKeys kwargs ∧
      check_required requires kwargs =
        Except.error (PayPalExn.payPalError ("missing required : " ++ r)) := by
  intro requires
  induction requires with
  | nil =>
    intro kwargs hnorm habs
    obtain ⟨r, hr, _⟩ := habs
    cases hr
  | cons req rest ih =>
    intro kwargs hnorm habs
    by_cases hlow : pyLower req ∈ dictKeys kwargs
    · -- req is present lower-cased, so the absent name is in the tail
      have hpres : ¬(pyLower req ∉ dictKeys kwargs ∧ pyUpper req ∉ dictKeys kwargs) :=
        fun hc => hc.1 hlow
      obtain ⟨r, hr, habs_r⟩ := habs
      rcases List.mem_cons.mp hr with h1 | h1
      · exact absurd ((hnorm req (List.mem_cons_self _ _)).1)
          (h1 ▸ habs_r (pyLower req) hlow)
      · obtain ⟨r', hr', ha, hb, hres⟩ := ih kwargs
          (fun s hs => hnorm s (List.mem_cons_of_mem _ hs)) ⟨r, h1, habs_r⟩
        exact ⟨r', List.mem_cons_of_mem _ hr', ha, hb, by
          simp only [check_required, if_neg hpres]; exact hres⟩
    · by_cases hup : pyUpper req ∈ dictKeys kwargs
      · have hpres : ¬(pyLower req ∉ dictKeys kwargs ∧ pyUpper req ∉ dictKeys kwargs) :=
          fun hc => hc.2 hup
        obtain ⟨r, hr, habs_r⟩ := habs
        rcases List.mem_cons.mp hr with h1 | h1
        · exact absurd ((hnorm req (List.mem_cons_self _ _)).2)
            (h1 ▸ habs_r (pyUpper req) hup)
        · obtain ⟨r', hr', ha, hb, hres⟩ := ih kwargs
            (fun s hs => hnorm s (List.mem_cons_of_mem _ hs)) ⟨r, h1, habs_r⟩
          exact ⟨r', List.mem_cons_of_mem _ hr', ha, hb, by
            simp only [check_required, if_neg hpres]; exact hres⟩
      · exact ⟨req, List.mem_cons_self _ _, hlow, hup, by
          simp only [check_required, if_pos (And.intro hlow hup)]⟩

/-- C4: omitting (under any casing) one of the required names `business`,
`item_name_1`, `amount_1`, `quantity_1` makes
`generate_cart_upload_redirect_url` raise `PayPalError` naming a missing
required parameter, and no URL is returned. -/
theorem c4_cart_upload_missing_required (iface : PayPalInterface)
    (kwargs : List (String × String))
    (h : ∃ r ∈ cart_upload_required_vals, ∀ k ∈ dictKeys kwargs,
      pyUpper k ≠ pyUpper r) :
    ∃ r ∈ cart_upload_required_vals,
      (generate_cart_upload_redirect_url iface kwargs).2 =
        Except.error (PayPalExn.payPalError ("missing required : " ++ r)) := by
  obtain ⟨r, hr, _, _, herr⟩ :=
    check_required_error_of_absent cart_upload_required_vals kwargs (by decide) h
  exact ⟨r, hr, by simp [generate_cart_upload_redirect_url, herr]⟩

/-- C4 witness: a map supplying only `business` makes the cart upload URL
generator raise a missing-required error. -/
theorem c4_witness :
    ∃ r ∈ cart_upload_required_vals,
      (generate_cart_upload_redirect_url iface0
        [("business", "merchant@example.com")]).2 =
        Except.error (PayPalExn.payPalError ("missing required : " ++ r)) :=
  c4_cart_upload_missing_required iface0 [("business", "merchant@example.com")]
    ⟨"item_name_1", by decide, by decide⟩

/-- C5 counterexample: `_check_required` rejects a required name supplied in
mixed case: a map containing `Business` is treated as missing `business`,
even though the two names agree up to case. -/
theorem c5_counterexample :
    check_required ["business"] [("Business", "merchant@example.com")] =
        Except.error (PayPalExn.payPalError "missing required : business") ∧
      pyUpper "Business" = pyUpper "business" :=
  ⟨rfl, rfl⟩

/-- C5 (amended): `_check_required` accepts a required name present in its
all-lower-case or all-upper-case form; only those two casings count as
presence. -/
theorem c5_check_required_lower_or_upper :
    ∀ (requires : List String) (kwargs : List (String × String)),
    (∀ r ∈ requires, pyLower r ∈ dictKeys kwargs ∨ pyUpper r ∈ dictKeys kwargs) →
    check_required requires kwargs = Except.ok () := by
  intro requires
  induction requires with
  | nil => intro kwargs h; rfl
  | cons req rest ih =>
    intro kwargs h
    have hpres : ¬(pyLower req ∉ dictKeys kwargs ∧ pyUpper req ∉ dictKeys kwargs) := by
      rcases h req (List.mem_cons_self _ _) with h1 | h1
      · exact fun hc => hc.1 h1
      · exact fun hc => hc.2 h1
    simp only [check_required, if_neg hpres]
    exact ih kwargs (fun r hr => h r (List.mem_cons_of_mem _ hr))

/-- C5 witness: a required name supplied upper-cased passes the check. -/
theorem c5_witness :
    check_required ["business"] [("BUSINESS", "merchant@example.com")] =
      Except.ok () :=
  c5_check_required_lower_or_upper ["business"]
    [("BUSINESS", "merchant@example.com")] (by decide)

/-- C7: no operation of the interface modifies the configuration: every
embedded method returns the interface state, and in particular its
configuration with all fields, unchanged. -/
theorem c7_config_never_modified (iface : PayPalInterface) (method : String)
    (kwargs : PyDict) (http : PyDict → String)
    (email street zip authorizationid amt completetype paymentaction token : String)
    (cart_kwargs : List (String × String)) :
    (call iface method kwargs http).1 = iface ∧
    (call iface method kwargs http).1.config = iface.config ∧
    (address_verify iface email street zip http).1 = iface ∧
    (do_capture iface authorizationid amt completetype kwargs http).1 = iface ∧
    (do_direct_payment iface paymentaction kwargs http).1 = iface ∧
    (do_mass_pay iface kwargs http).1 = iface ∧
    (do_void iface kwargs http).1 = iface ∧
    (generate_express_checkout_redirect_url iface token).1 = iface ∧
    (generate_cart_upload_redirect_url iface cart_kwargs).1 = iface :=
  ⟨rfl, rfl, rfl, rfl, rfl, rfl, rfl, rfl, rfl⟩

/-- C8: parsing an NVP response text is total and yields the decoded
key/value mapping, with a success flag that holds exactly when the ACK field
equals an accepted-success token compared case-insensitively, and every
`key=value` field declared in the text is accessible on the parsed
response. -/
theorem c8_parse_success_iff_ack (raw : String) :
    ((parseResponseModel raw).nvp = parseNVP raw) ∧
    ((parseResponseModel raw).success = true ↔
      ∃ v, dictLookup (parseNVP raw) "ACK" = some v ∧
        (pyUpper v = "SUCCESS" ∨ pyUpper v = "SUCCESSWITHWARNING")) ∧
    (∀ field ∈ splitSep '&' raw.data, ∀ k v, parsePair field = some (k, v) →
      (k, v) ∈ (parseResponseModel raw).nvp ∧
        (dictLookup (parseResponseModel raw).nvp k).isSome = true) := by
  refine ⟨rfl, ?_, ?_⟩
  · simp only [parseResponseModel]
    cases hack : dictLookup (parseNVP raw) "ACK" with
    | none => simp
    | some v => simp [acceptedSuccessTokens]
  · intro field hf k v hkv
    have hmem : (k, v) ∈ parseNVP raw :=
      List.mem_filterMap.mpr ⟨field, hf, hkv⟩
    exact ⟨hmem, dictLookup_isSome_of_mem hmem⟩

/-- C8 witness: a concrete success body parses with a true success flag and
its declared BUILD field accessible. -/
theorem c8_witness :
    (parseResponseModel "ACK=Success&BUILD=3067390").success = true ∧
    (dictLookup (parseResponseModel "ACK=Success&BUILD=3067390").nvp
      "BUILD").isSome = true :=
  ⟨(c8_parse_success_iff_ack "ACK=Success&BUILD=3067390").2.1.mpr
      ⟨"Success", by decide, Or.inl (by decide)⟩,
   ((c8_parse_success_iff_ack "ACK=Success&BUILD=3067390").2.2
      "BUILD=3067390".data (by decide) "BUILD" "3067390" (by decide)).2⟩

/-- C10: `generate_express_checkout_redirect_url` touches no state and
deterministically returns the configured `PAYPAL_URL_BASE` followed by the
literal `?cmd=_express-checkout&token=` followed by the token. -/
theorem c10_express_redirect_url (iface : PayPalInterface) (token : String) :
    (generate_express_checkout_redirect_url iface token).1 = iface ∧
    (generate_express_checkout_redirect_url iface token).2 =
      iface.config.PAYPAL_URL_BASE ++ "?cmd=_express-checkout&token=" ++ token :=
  ⟨rfl, rfl⟩

end PaypalApi
